import Mathlib

/-
Verification of the scoring, disclosure-quality and extraction logic of the
automotive financial/sustainability analyzer (src/app.py and src/main.py).
The two scripts share identical dataclasses and scoring arithmetic; the
definitions below are a shallow embedding of that shared logic.
-/

namespace AutoESG

/-- The dataclass FinancialIndicators: eight graded metrics, each an optional
integer score (0, 1, 2 or None in the scripts) paired with an evidence string
(src/app.py lines 32-49, src/main.py lines 31-63). -/
structure FinancialIndicators where
  revenue_growth_score : Option Int
  revenue_growth_evidence : String
  gross_margin_score : Option Int
  gross_margin_evidence : String
  operating_margin_score : Option Int
  operating_margin_evidence : String
  ebitda_margin_score : Option Int
  ebitda_margin_evidence : String
  fcf_score : Option Int
  fcf_evidence : String
  capex_score : Option Int
  capex_evidence : String
  rnd_score : Option Int
  rnd_evidence : String
  inventory_score : Option Int
  inventory_evidence : String

/-- The dataclass SustainabilityIndicators: fifteen boolean flags, each paired
with an evidence string (src/app.py lines 52-83, src/main.py lines 67-105). -/
structure SustainabilityIndicators where
  ghg_scope1_reported : Bool
  ghg_scope1_evidence : String
  ghg_scope2_reported : Bool
  ghg_scope2_evidence : String
  ghg_scope3_reported : Bool
  ghg_scope3_evidence : String
  ghg_yoy_change_reported : Bool
  ghg_yoy_evidence : String
  ev_production_targets : Bool
  ev_targets_evidence : String
  battery_recycling_reported : Bool
  battery_recycling_evidence : String
  ice_phaseout_date_specified : Bool
  ice_phaseout_evidence : String
  supply_chain_traceability : Bool
  supply_chain_evidence : String
  claims_have_specificity : Bool
  specificity_evidence : String
  claims_have_supporting_evidence : Bool
  supporting_evidence : String
  avoids_excessive_self_praise : Bool
  self_praise_evidence : String
  water_usage_reported : Bool
  water_usage_evidence : String
  hazardous_waste_reported : Bool
  hazardous_waste_evidence : String
  regulatory_fines_disclosed : Bool
  fines_evidence : String
  supplier_audit_frequency : Bool
  audit_evidence : String

/-- One step of compute_financial_score: the Python
`if x is not None: score += x`. -/
def addIfSome (score : Int) (s : Option Int) : Int :=
  match s with
  | some v => score + v
  | none => score

/-- compute_financial_score (src/app.py lines 377-396, src/main.py lines
420-446): start from 0 and add each of the eight score fields when it is not
None. -/
def compute_financial_score (fi : FinancialIndicators) : Int :=
  let score : Int := 0
  let score := addIfSome score fi.revenue_growth_score
  let score := addIfSome score fi.gross_margin_score
  let score := addIfSome score fi.operating_margin_score
  let score := addIfSome score fi.ebitda_margin_score
  let score := addIfSome score fi.fcf_score
  let score := addIfSome score fi.capex_score
  let score := addIfSome score fi.rnd_score
  let score := addIfSome score fi.inventory_score
  score

/-- One step of compute_sustainability_score: the Python
`if flag: score += 1`. -/
def addIfTrue (score : Nat) (b : Bool) : Nat :=
  if b then score + 1 else score

/-- compute_sustainability_score (src/app.py lines 399-441, src/main.py lines
449-500): start from 0 and add one point per true flag, over the fifteen
boolean fields in source order. -/
def compute_sustainability_score (si : SustainabilityIndicators) : Nat :=
  let score : Nat := 0
  let score := addIfTrue score si.ghg_scope1_reported
  let score := addIfTrue score si.ghg_scope2_reported
  let score := addIfTrue score si.ghg_scope3_reported
  let score := addIfTrue score si.ghg_yoy_change_reported
  let score := addIfTrue score si.ev_production_targets
  let score := addIfTrue score si.battery_recycling_reported
  let score := addIfTrue score si.ice_phaseout_date_specified
  let score := addIfTrue score si.supply_chain_traceability
  let score := addIfTrue score si.claims_have_specificity
  let score := addIfTrue score si.claims_have_supporting_evidence
  let score := addIfTrue score si.avoids_excessive_self_praise
  let score := addIfTrue score si.water_usage_reported
  let score := addIfTrue score si.hazardous_waste_reported
  let score := addIfTrue score si.regulatory_fines_disclosed
  let score := addIfTrue score si.supplier_audit_frequency
  score

/-- The eight optional score fields of a FinancialIndicators record, in the
order compute_financial_score visits them. -/
def score_fields (fi : FinancialIndicators) : List (Option Int) :=
  [fi.revenue_growth_score, fi.gross_margin_score, fi.operating_margin_score,
   fi.ebitda_margin_score, fi.fcf_score, fi.capex_score, fi.rnd_score,
   fi.inventory_score]

/-- The fifteen boolean flags of a SustainabilityIndicators record, in the
order compute_sustainability_score visits them. -/
def sustainability_flags (si : SustainabilityIndicators) : List Bool :=
  [si.ghg_scope1_reported, si.ghg_scope2_reported, si.ghg_scope3_reported,
   si.ghg_yoy_change_reported, si.ev_production_targets,
   si.battery_recycling_reported, si.ice_phaseout_date_specified,
   si.supply_chain_traceability, si.claims_have_specificity,
   si.claims_have_supporting_evidence, si.avoids_excessive_self_praise,
   si.water_usage_reported, si.hazardous_waste_reported,
   si.regulatory_fines_disclosed, si.supplier_audit_frequency]

/-- Python `sum(flags)` over a list of booleans: true counts 1, false 0. -/
def boolSum (flags : List Bool) : Nat :=
  (flags.map Bool.toNat).sum

/-- The raw sum of the non-null score fields, nulls contributing zero. -/
def raw_sum (fi : FinancialIndicators) : Int :=
  ((score_fields fi).map (fun s => s.getD 0)).sum

/-- A score field respects the documented range when, if set, it lies in
{0, 1, 2}. -/
def valid_score (s : Option Int) : Prop :=
  match s with
  | none => True
  | some v => 0 ≤ v ∧ v ≤ 2

instance (s : Option Int) : Decidable (valid_score s) := by
  unfold valid_score
  cases s with
  | none => exact inferInstanceAs (Decidable True)
  | some v => exact inferInstanceAs (Decidable (0 ≤ v ∧ v ≤ 2))

/-- Normalization of the financial score as written at every call site:
`(f_score / 16) * 10` (src/app.py line 579 and 745, src/main.py lines 522 and
612).  Python float division is modelled by exact rational division. -/
def f_score_normalized (f_score : Int) : ℚ :=
  ((f_score : ℚ) / 16) * 10

/-- Normalization of the sustainability score as written at every call site:
`(s_score / 15) * 10` (src/app.py line 580 and 764, src/main.py lines 523 and
627). -/
def s_score_normalized (s_score : Nat) : ℚ :=
  ((s_score : ℚ) / 15) * 10

/-- Modelled from the spec: the normalization formula of section 4.4,
`normalized = (score / max) * 10`, to be compared with the normalizations
written in the code. -/
def normalize_spec (score maxScore : ℚ) : ℚ :=
  (score / maxScore) * 10

/-- The completeness_flags list of compute_disclosure_quality (src/app.py
lines 456-469): the twelve key-metric flags, in source order. -/
def completeness_flags (si : SustainabilityIndicators) : List Bool :=
  [si.ghg_scope1_reported, si.ghg_scope2_reported, si.ghg_scope3_reported,
   si.ghg_yoy_change_reported, si.ev_production_targets,
   si.battery_recycling_reported, si.ice_phaseout_date_specified,
   si.supply_chain_traceability, si.water_usage_reported,
   si.hazardous_waste_reported, si.regulatory_fines_disclosed,
   si.supplier_audit_frequency]

/-- The reliability_flags list of compute_disclosure_quality (src/app.py
lines 474-478): the three greenwashing-related flags. -/
def reliability_flags (si : SustainabilityIndicators) : List Bool :=
  [si.claims_have_specificity, si.claims_have_supporting_evidence,
   si.avoids_excessive_self_praise]

/-- The Python `sum(flags) / len(flags) if flags else 0.0` pattern used for
both ratios in compute_disclosure_quality. -/
def ratioOf (flags : List Bool) : ℚ :=
  if flags.length = 0 then 0 else (boolSum flags : ℚ) / (flags.length : ℚ)

/-- completeness_ratio of compute_disclosure_quality (src/app.py line 471). -/
def completeness_ratio (si : SustainabilityIndicators) : ℚ :=
  ratioOf (completeness_flags si)

/-- reliability_ratio of compute_disclosure_quality (src/app.py line 479). -/
def reliability_ratio (si : SustainabilityIndicators) : ℚ :=
  ratioOf (reliability_flags si)

/-- to_level (src/app.py lines 481-487): bucket a ratio into "High",
"Medium" or "Low" using inclusive lower bounds 0.75 and 0.4. -/
def to_level (r : ℚ) : String :=
  if r ≥ 0.75 then "High"
  else if r ≥ 0.4 then "Medium"
  else "Low"

/-- The dictionary returned by compute_disclosure_quality (src/app.py lines
489-494). -/
structure DisclosureQuality where
  completeness_ratio : ℚ
  reliability_ratio : ℚ
  completeness_level : String
  reliability_level : String

/-- compute_disclosure_quality (src/app.py lines 446-494). -/
def compute_disclosure_quality (si : SustainabilityIndicators) : DisclosureQuality :=
  { completeness_ratio := completeness_ratio si
    reliability_ratio := reliability_ratio si
    completeness_level := to_level (completeness_ratio si)
    reliability_level := to_level (reliability_ratio si) }

/-- The ordered level axis of the risk matrix (src/app.py line 512). -/
def levels : List String := ["Low", "Medium", "High"]

/-- risk_map of render_disclosure_matrix (src/app.py lines 515-525): for each
(reliability level, completeness level) pair, a risk label and a hex colour. -/
def risk_map : List ((String × String) × (String × String)) :=
  [(("Low", "Low"), ("High", "#d73027")),
   (("Low", "Medium"), ("High", "#d73027")),
   (("Low", "High"), ("Med-High", "#f46d43")),
   (("Medium", "Low"), ("High", "#d73027")),
   (("Medium", "Medium"), ("Medium", "#fdae61")),
   (("Medium", "High"), ("Medium", "#fdae61")),
   (("High", "Low"), ("Med-High", "#f46d43")),
   (("High", "Medium"), ("Medium", "#fdae61")),
   (("High", "High"), ("Low", "#66bd63"))]

/-- The dictionary access `risk_map[(rel, comp)]` of src/app.py line 533. -/
def risk_map_lookup (rel comp : String) : Option (String × String) :=
  risk_map.lookup (rel, comp)

/-- Rank of a level name, for stating monotonicity of to_level: "Low" <
"Medium" < "High". -/
def level_rank (level : String) : Nat :=
  if level = "High" then 2
  else if level = "Medium" then 1
  else 0

/-- The overall-score conditional shared by both mains (src/app.py lines
771-779, src/main.py lines 631-640): mean of the two normalized scores when
both inputs are present, the present one's normalized score when only one is,
and 0 when neither is. -/
def overall_score (hasF hasS : Bool) (f_norm s_norm : ℚ) : ℚ :=
  if hasF && hasS then (f_norm + s_norm) / 2
  else if hasF then f_norm
  else if hasS then s_norm
  else 0

/-- The score pipeline of both mains, restricted to what reaches the overall
score: each present indicator record is scored and normalized (an absent one
leaves the initialized 0), then the overall conditional is applied. -/
def analyze_overall (fin : Option FinancialIndicators)
    (sus : Option SustainabilityIndicators) : ℚ :=
  let f_norm := match fin with
    | some fi => f_score_normalized (compute_financial_score fi)
    | none => 0
  let s_norm := match sus with
    | some si => s_score_normalized (compute_sustainability_score si)
    | none => 0
  overall_score fin.isSome sus.isSome f_norm s_norm

/-- The observable outcome of the summary step at the end of each main. -/
inductive SummaryAction where
  | generated
  | financial_only_note
  | sustainability_only_note
  | no_output
deriving DecidableEq

/-- The summary step of the CLI main (src/main.py lines 674-684): generate the
investor summary only when both PDF paths are configured; otherwise print a
note naming the missing report, or nothing when neither path is set. -/
def main_summary_step (financial_pdf_path sustainability_pdf_path : Bool) :
    SummaryAction :=
  if financial_pdf_path && sustainability_pdf_path then .generated
  else if financial_pdf_path then .financial_only_note
  else if sustainability_pdf_path then .sustainability_only_note
  else .no_output

/-- The summary step of the Streamlit main (src/app.py lines 856-875):
generate the investor summary only when both indicator records exist;
otherwise show an info note, or nothing when neither exists. -/
def app_summary_step (fi si : Bool) : SummaryAction :=
  if fi && si then .generated
  else if fi then .financial_only_note
  else if si then .sustainability_only_note
  else .no_output

/-- A JSON value, as far as the extraction code inspects one. -/
inductive Json where
  | null : Json
  | bool : Bool → Json
  | num : Int → Json
  | str : String → Json
deriving DecidableEq

/-- The Python subscript `data[k]` on the parsed JSON object: the value when
the key is present, a KeyError naming the key otherwise. -/
def getKey (data : List (String × Json)) (k : String) : Except String Json :=
  match data.lookup k with
  | some v => Except.ok v
  | none => Except.error k

/-- Evaluate `data[k]` for each key in order, propagating the first KeyError:
the sequence of subscript evaluations in a dataclass constructor call. -/
def get_all_keys (data : List (String × Json)) : List String → Except String (List Json)
  | [] => Except.ok []
  | k :: ks => do
    let v ← getKey data k
    let vs ← get_all_keys data ks
    pure (v :: vs)

/-- The sixteen keys read by the FinancialIndicators constructor call of
extract_financial_indicators (src/app.py lines 237-254, src/main.py the
same), in evaluation order. -/
def financial_required_keys : List String :=
  ["revenue_growth_score", "revenue_growth_evidence",
   "gross_margin_score", "gross_margin_evidence",
   "operating_margin_score", "operating_margin_evidence",
   "ebitda_margin_score", "ebitda_margin_evidence",
   "fcf_score", "fcf_evidence",
   "capex_score", "capex_evidence",
   "rnd_score", "rnd_evidence",
   "inventory_score", "inventory_evidence"]

/-- The thirty keys read by the SustainabilityIndicators constructor call of
extract_sustainability_indicators (src/app.py lines 341-372, src/main.py
lines 384-415), in evaluation order. -/
def sustainability_required_keys : List String :=
  ["ghg_scope1_reported", "ghg_scope1_evidence",
   "ghg_scope2_reported", "ghg_scope2_evidence",
   "ghg_scope3_reported", "ghg_scope3_evidence",
   "ghg_yoy_change_reported", "ghg_yoy_evidence",
   "ev_production_targets", "ev_targets_evidence",
   "battery_recycling_reported", "battery_recycling_evidence",
   "ice_phaseout_date_specified", "ice_phaseout_evidence",
   "supply_chain_traceability", "supply_chain_evidence",
   "claims_have_specificity", "specificity_evidence",
   "claims_have_supporting_evidence", "supporting_evidence",
   "avoids_excessive_self_praise", "self_praise_evidence",
   "water_usage_reported", "water_usage_evidence",
   "hazardous_waste_reported", "hazardous_waste_evidence",
   "regulatory_fines_disclosed", "fines_evidence",
   "supplier_audit_frequency", "audit_evidence"]

/-- extract_financial_indicators, from json.loads onward: read every required
key off the parsed object, in constructor-argument order, failing on the
first missing key.  The produced record is represented by the ordered list of
its constructor arguments. -/
def extract_financial_indicators (data : List (String × Json)) :
    Except String (List Json) :=
  get_all_keys data financial_required_keys

/-- extract_sustainability_indicators, from json.loads onward, in the same
representation. -/
def extract_sustainability_indicators (data : List (String × Json)) :
    Except String (List Json) :=
  get_all_keys data sustainability_required_keys

/-- Build a FinancialIndicators record from its eight score fields, with
empty evidence strings. -/
def mkFinancial (s1 s2 s3 s4 s5 s6 s7 s8 : Option Int) : FinancialIndicators :=
  { revenue_growth_score := s1, revenue_growth_evidence := ""
    gross_margin_score := s2, gross_margin_evidence := ""
    operating_margin_score := s3, operating_margin_evidence := ""
    ebitda_margin_score := s4, ebitda_margin_evidence := ""
    fcf_score := s5, fcf_evidence := ""
    capex_score := s6, capex_evidence := ""
    rnd_score := s7, rnd_evidence := ""
    inventory_score := s8, inventory_evidence := "" }

/-- Build a SustainabilityIndicators record from its fifteen flags, with
empty evidence strings. -/
def mkSustainability (b1 b2 b3 b4 b5 b6 b7 b8 b9 b10 b11 b12 b13 b14 b15 : Bool) :
    SustainabilityIndicators :=
  { ghg_scope1_reported := b1, ghg_scope1_evidence := ""
    ghg_scope2_reported := b2, ghg_scope2_evidence := ""
    ghg_scope3_reported := b3, ghg_scope3_evidence := ""
    ghg_yoy_change_reported := b4, ghg_yoy_evidence := ""
    ev_production_targets := b5, ev_targets_evidence := ""
    battery_recycling_reported := b6, battery_recycling_evidence := ""
    ice_phaseout_date_specified := b7, ice_phaseout_evidence := ""
    supply_chain_traceability := b8, supply_chain_evidence := ""
    claims_have_specificity := b9, specificity_evidence := ""
    claims_have_supporting_evidence := b10, supporting_evidence := ""
    avoids_excessive_self_praise := b11, self_praise_evidence := ""
    water_usage_reported := b12, water_usage_evidence := ""
    hazardous_waste_reported := b13, hazardous_waste_evidence := ""
    regulatory_fines_disclosed := b14, fines_evidence := ""
    supplier_audit_frequency := b15, audit_evidence := "" }

/-- A financial record with all eight scores equal to 2. -/
def all_two_financial : FinancialIndicators :=
  mkFinancial (some 2) (some 2) (some 2) (some 2) (some 2) (some 2) (some 2) (some 2)

/-- A financial record with all eight scores null. -/
def all_null_financial : FinancialIndicators :=
  mkFinancial none none none none none none none none

/-- A financial record with one out-of-range score of 100 and the rest null. -/
def single_hundred_financial : FinancialIndicators :=
  mkFinancial (some 100) none none none none none none none

/-- The sustainability record of the spec scenario: the twelve completeness
flags are [true, true, true, true, false, false, false, false, true, true,
true, true] in source order, and all three reliability flags are true. -/
def scenario_si : SustainabilityIndicators :=
  mkSustainability true true true true false false false false
    true true true true true true true

theorem addIfSome_eq (score : Int) (s : Option Int) :
    addIfSome score s = score + s.getD 0 := by
  cases s <;> simp [addIfSome]

theorem addIfTrue_eq (score : Nat) (b : Bool) :
    addIfTrue score b = score + b.toNat := by
  cases b <;> simp [addIfTrue]

theorem compute_eq_raw_sum (fi : FinancialIndicators) :
    compute_financial_score fi = raw_sum fi := by
  simp only [compute_financial_score, addIfSome_eq, raw_sum, score_fields,
    List.map_cons, List.map_nil, List.sum_cons, List.sum_nil]
  ring

theorem valid_getD_bounds (s : Option Int) (h : valid_score s) :
    0 ≤ s.getD 0 ∧ s.getD 0 ≤ 2 := by
  cases s with
  | none => simp
  | some v => simpa [valid_score] using h

theorem raw_sum_bounds (fi : FinancialIndicators)
    (h : ∀ s ∈ score_fields fi, valid_score s) :
    0 ≤ raw_sum fi ∧ raw_sum fi ≤ 16 := by
  have h1 := valid_getD_bounds _ (h fi.revenue_growth_score (by simp [score_fields]))
  have h2 := valid_getD_bounds _ (h fi.gross_margin_score (by simp [score_fields]))
  have h3 := valid_getD_bounds _ (h fi.operating_margin_score (by simp [score_fields]))
  have h4 := valid_getD_bounds _ (h fi.ebitda_margin_score (by simp [score_fields]))
  have h5 := valid_getD_bounds _ (h fi.fcf_score (by simp [score_fields]))
  have h6 := valid_getD_bounds _ (h fi.capex_score (by simp [score_fields]))
  have h7 := valid_getD_bounds _ (h fi.rnd_score (by simp [score_fields]))
  have h8 := valid_getD_bounds _ (h fi.inventory_score (by simp [score_fields]))
  simp only [raw_sum, score_fields, List.map_cons, List.map_nil, List.sum_cons,
    List.sum_nil]
  constructor <;> linarith [h1.1, h1.2, h2.1, h2.2, h3.1, h3.2, h4.1, h4.2,
    h5.1, h5.2, h6.1, h6.2, h7.1, h7.2, h8.1, h8.2]

/-- C1: on a financial record whose eight score fields each lie in
{0, 1, 2, null}, compute_financial_score returns exactly the sum of the
non-null score fields (nulls contribute zero) and never exceeds 16; the
all-twos record scores 16 and normalizes to 10, and the all-null record
scores 0 and normalizes to 0. -/
theorem financial_score_sums_non_null (fi : FinancialIndicators)
    (h : ∀ s ∈ score_fields fi, valid_score s) :
    compute_financial_score fi = raw_sum fi ∧
    compute_financial_score fi ≤ 16 ∧
    compute_financial_score all_two_financial = 16 ∧
    f_score_normalized (compute_financial_score all_two_financial) = 10 ∧
    compute_financial_score all_null_financial = 0 ∧
    f_score_normalized (compute_financial_score all_null_financial) = 0 := by
  refine ⟨compute_eq_raw_sum fi, ?_, by decide, ?_, by decide, ?_⟩
  · rw [compute_eq_raw_sum fi]
    exact (raw_sum_bounds fi h).2
  · have : compute_financial_score all_two_financial = 16 := by decide
    rw [this]
    norm_num [f_score_normalized]
  · have : compute_financial_score all_null_financial = 0 := by decide
    rw [this]
    norm_num [f_score_normalized]

/-- C1 witness: the all-twos record satisfies the range precondition and the
theorem evaluates on it. -/
theorem financial_score_sums_non_null_witness :
    compute_financial_score all_two_financial = raw_sum all_two_financial ∧
    compute_financial_score all_two_financial ≤ 16 :=
  ⟨(financial_score_sums_non_null all_two_financial (by decide)).1,
   (financial_score_sums_non_null all_two_financial (by decide)).2.1⟩

/-- C2: compute_sustainability_score returns exactly the number of true
flags among the fifteen boolean fields, and never exceeds 15. -/
theorem sustainability_score_counts_true (si : SustainabilityIndicators) :
    compute_sustainability_score si = boolSum (sustainability_flags si) ∧
    compute_sustainability_score si ≤ 15 := by
  have heq : compute_sustainability_score si = boolSum (sustainability_flags si) := by
    simp only [compute_sustainability_score, addIfTrue_eq, boolSum,
      sustainability_flags, List.map_cons, List.map_nil, List.sum_cons,
      List.sum_nil]
    ring
  refine ⟨heq, ?_⟩
  rw [heq]
  simp only [boolSum, sustainability_flags, List.map_cons, List.map_nil,
    List.sum_cons, List.sum_nil]
  have u1 := Bool.toNat_le si.ghg_scope1_reported
  have u2 := Bool.toNat_le si.ghg_scope2_reported
  have u3 := Bool.toNat_le si.ghg_scope3_reported
  have u4 := Bool.toNat_le si.ghg_yoy_change_reported
  have u5 := Bool.toNat_le si.ev_production_targets
  have u6 := Bool.toNat_le si.battery_recycling_reported
  have u7 := Bool.toNat_le si.ice_phaseout_date_specified
  have u8 := Bool.toNat_le si.supply_chain_traceability
  have u9 := Bool.toNat_le si.claims_have_specificity
  have u10 := Bool.toNat_le si.claims_have_supporting_evidence
  have u11 := Bool.toNat_le si.avoids_excessive_self_praise
  have u12 := Bool.toNat_le si.water_usage_reported
  have u13 := Bool.toNat_le si.hazardous_waste_reported
  have u14 := Bool.toNat_le si.regulatory_fines_disclosed
  have u15 := Bool.toNat_le si.supplier_audit_frequency
  omega

/-- C10: compute_financial_score performs no range validation: under the
documented range precondition the total lies in [0, 16], but the record with
one score field equal to 100 (out of range) and the rest null totals 100,
exceeding the documented maximum of 16. -/
theorem financial_score_no_range_validation (fi : FinancialIndicators)
    (h : ∀ s ∈ score_fields fi, valid_score s) :
    (0 ≤ compute_financial_score fi ∧ compute_financial_score fi ≤ 16) ∧
    ¬ valid_score single_hundred_financial.revenue_growth_score ∧
    compute_financial_score single_hundred_financial = 100 ∧
    16 < compute_financial_score single_hundred_financial := by
  refine ⟨?_, by decide, by decide, by decide⟩
  rw [compute_eq_raw_sum fi]
  exact raw_sum_bounds fi h

/-- C10 witness: the theorem evaluates on the all-null record, which
satisfies the range precondition. -/
theorem financial_score_no_range_validation_witness :
    (0 ≤ compute_financial_score all_null_financial ∧
      compute_financial_score all_null_financial ≤ 16) ∧
    compute_financial_score single_hundred_financial = 100 :=
  ⟨(financial_score_no_range_validation all_null_financial (by decide)).1,
   (financial_score_no_range_validation all_null_financial (by decide)).2.2.1⟩

theorem to_level_high {r : ℚ} (h : 0.75 ≤ r) : to_level r = "High" := by
  simp [to_level, ge_iff_le, h]

theorem to_level_medium {r : ℚ} (h1 : 0.4 ≤ r) (h2 : r < 0.75) :
    to_level r = "Medium" := by
  unfold to_level
  rw [if_neg (by simpa [ge_iff_le] using not_le.mpr h2),
    if_pos (by simpa [ge_iff_le] using h1)]

theorem to_level_low {r : ℚ} (h : r < 0.4) : to_level r = "Low" := by
  have h2 : r < 0.75 := lt_trans h (by norm_num)
  unfold to_level
  rw [if_neg (by simpa [ge_iff_le] using not_le.mpr h2),
    if_neg (by simpa [ge_iff_le] using not_le.mpr h)]

/-- C3: compute_disclosure_quality computes completeness_ratio as the count
of true flags among the fixed 12-field subset divided by 12 and
reliability_ratio as the count among the 3 greenwashing-related fields
divided by 3; the scenario record with completeness flags
[T,T,T,T,F,F,F,F,T,T,T,T] gets completeness level "Medium", its three true
reliability flags give level "High", and the risk-map cell (reliability
"High", completeness "Medium") carries label "Medium". -/
theorem disclosure_quality_scenario (si : SustainabilityIndicators) :
    completeness_ratio si = (boolSum (completeness_flags si) : ℚ) / 12 ∧
    reliability_ratio si = (boolSum (reliability_flags si) : ℚ) / 3 ∧
    completeness_ratio scenario_si = 8 / 12 ∧
    (compute_disclosure_quality scenario_si).completeness_level = "Medium" ∧
    reliability_ratio scenario_si = 1 ∧
    (compute_disclosure_quality scenario_si).reliability_level = "High" ∧
    risk_map_lookup "High" "Medium" = some ("Medium", "#fdae61") := by
  have hc : completeness_ratio scenario_si = 8 / 12 := by
    simp [completeness_ratio, ratioOf, completeness_flags, boolSum,
      scenario_si, mkSustainability]
  have hr : reliability_ratio scenario_si = 1 := by
    simp [reliability_ratio, ratioOf, reliability_flags, boolSum,
      scenario_si, mkSustainability]
  refine ⟨?_, ?_, hc, ?_, hr, ?_, by decide⟩
  · simp [completeness_ratio, ratioOf, completeness_flags]
  · simp [reliability_ratio, ratioOf, reliability_flags]
  · show to_level (completeness_ratio scenario_si) = "Medium"
    rw [hc]
    exact to_level_medium (by norm_num) (by norm_num)
  · show to_level (reliability_ratio scenario_si) = "High"
    rw [hr]
    exact to_level_high (by norm_num)

/-- C4: to_level maps any ratio to one of three levels with inclusive lower
bounds: r >= 0.75 gives "High" (so 1 and the boundary 0.75 give "High"),
0.4 <= r < 0.75 gives "Medium" (the boundary 0.4 gives "Medium"), r < 0.4
gives "Low" (so 0 gives "Low"); and a larger ratio never yields a strictly
lower level. -/
theorem to_level_thresholds_monotone (r s : ℚ) (hrs : r ≤ s) :
    (0.75 ≤ r → to_level r = "High") ∧
    (0.4 ≤ r → r < 0.75 → to_level r = "Medium") ∧
    (r < 0.4 → to_level r = "Low") ∧
    to_level 1 = "High" ∧ to_level 0.75 = "High" ∧
    to_level 0.4 = "Medium" ∧ to_level 0 = "Low" ∧
    level_rank (to_level r) ≤ level_rank (to_level s) := by
  refine ⟨to_level_high, to_level_medium, to_level_low,
    to_level_high (by norm_num), to_level_high (by norm_num),
    to_level_medium (by norm_num) (by norm_num), to_level_low (by norm_num), ?_⟩
  rcases le_or_lt (0.75 : ℚ) r with hr | hr
  · rw [to_level_high hr, to_level_high (le_trans hr hrs)]
  · rcases le_or_lt (0.4 : ℚ) r with hr4 | hr4
    · rw [to_level_medium hr4 hr]
      rcases le_or_lt (0.75 : ℚ) s with hs | hs
      · rw [to_level_high hs]
        decide
      · rw [to_level_medium (le_trans hr4 hrs) hs]
    · rw [to_level_low hr4]
      exact Nat.zero_le _

/-- C4 witness: the theorem evaluates at the boundary pair r = 0.4, s = 1. -/
theorem to_level_thresholds_monotone_witness :
    to_level 0.4 = "Medium" ∧
    level_rank (to_level 0.4) ≤ level_rank (to_level 1) :=
  ⟨(to_level_thresholds_monotone 0.4 1 (by norm_num)).2.2.2.2.2.1,
   (to_level_thresholds_monotone 0.4 1 (by norm_num)).2.2.2.2.2.2.2⟩

/-- C5: the overall score equals the arithmetic mean of the financial and
sustainability normalized scores when both indicator records exist, equals
the present one's normalized score when exactly one exists, and is zero when
neither exists. -/
theorem overall_score_cases (fi : FinancialIndicators)
    (si : SustainabilityIndicators) :
    analyze_overall (some fi) (some si) =
      (f_score_normalized (compute_financial_score fi) +
       s_score_normalized (compute_sustainability_score si)) / 2 ∧
    analyze_overall (some fi) none =
      f_score_normalized (compute_financial_score fi) ∧
    analyze_overall none (some si) =
      s_score_normalized (compute_sustainability_score si) ∧
    analyze_overall none none = 0 := by
  refine ⟨?_, ?_, ?_, ?_⟩ <;> simp [analyze_overall, overall_score]

/-- C6: score normalization is exactly linear: the financial and
sustainability normalizations written in the code equal the spec formula
(score / max) * 10 at max 16 and 15 respectively, and the formula is
additive in the score. -/
theorem normalization_linear (f a b : Int) (s : Nat) :
    f_score_normalized f = normalize_spec (f : ℚ) 16 ∧
    s_score_normalized s = normalize_spec (s : ℚ) 15 ∧
    f_score_normalized (a + b) = f_score_normalized a + f_score_normalized b ∧
    normalize_spec 16 16 = 10 ∧ normalize_spec 15 15 = 10 := by
  refine ⟨rfl, rfl, ?_, by norm_num [normalize_spec], by norm_num [normalize_spec]⟩
  simp only [f_score_normalized]
  push_cast
  ring

theorem get_all_keys_missing (data : List (String × Json)) (keys : List String)
    (k : String) (hk : k ∈ keys) (hmiss : data.lookup k = none) :
    ∃ e, get_all_keys data keys = Except.error e := by
  induction keys with
  | nil => cases hk
  | cons a as ih =>
    rcases List.mem_cons.mp hk with rfl | hmem
    · refine ⟨k, ?_⟩
      simp only [get_all_keys, getKey, hmiss]
      rfl
    · rcases hga : getKey data a with e | v
      · refine ⟨e, ?_⟩
        simp only [get_all_keys, hga]
        rfl
      · rcases ih hmem with ⟨e, he⟩
        refine ⟨e, ?_⟩
        simp only [get_all_keys, hga, he]
        rfl

/-- C7: when the parsed JSON object is missing a required indicator key, the
extraction function fails with a KeyError rather than producing a partial or
defaulted record: this holds for both extract_financial_indicators and
extract_sustainability_indicators. -/
theorem extraction_missing_key_fails (data : List (String × Json)) (k : String)
    (hmiss : data.lookup k = none) :
    (k ∈ financial_required_keys →
      ∃ e, extract_financial_indicators data = Except.error e) ∧
    (k ∈ sustainability_required_keys →
      ∃ e, extract_sustainability_indicators data = Except.error e) :=
  ⟨fun hk => get_all_keys_missing data financial_required_keys k hk hmiss,
   fun hk => get_all_keys_missing data sustainability_required_keys k hk hmiss⟩

/-- C7 witness: the empty JSON object is missing every key, and both
extractions fail on it. -/
theorem extraction_missing_key_fails_witness :
    (∃ e, extract_financial_indicators [] = Except.error e) ∧
    (∃ e, extract_sustainability_indicators [] = Except.error e) :=
  ⟨(extraction_missing_key_fails [] "revenue_growth_score" rfl).1 (by decide),
   (extraction_missing_key_fails [] "ghg_scope1_reported" rfl).2 (by decide)⟩

/-- C8 counterexample: with a financial path configured and no
sustainability input, neither the CLI main nor the Streamlit main generates
a summary, refuting the claim that one call site summarizes whenever a
financial path is configured. -/
theorem summary_gate_counterexample :
    main_summary_step true false ≠ SummaryAction.generated ∧
    app_summary_step true false ≠ SummaryAction.generated := by
  decide

/-- C8 amended: the summary generator is invoked only when indicator sets
are available, and both call sites gate it the same way: a summary is
generated exactly when both the financial and the sustainability inputs were
supplied. -/
theorem summary_gate_both_required (f s : Bool) :
    (main_summary_step f s = SummaryAction.generated ↔ f = true ∧ s = true) ∧
    (app_summary_step f s = SummaryAction.generated ↔ f = true ∧ s = true) ∧
    main_summary_step f s = app_summary_step f s := by
  cases f <;> cases s <;> decide

/-- C9: the 3x3 risk lookup table is total on the level pairs and symmetric
in its two axes: swapping the reliability and completeness levels leaves
both the risk label and the colour unchanged. -/
theorem risk_map_total_symmetric (a b : String) (ha : a ∈ levels)
    (hb : b ∈ levels) :
    (risk_map_lookup a b).isSome = true ∧
    risk_map_lookup a b = risk_map_lookup b a := by
  simp only [levels, List.mem_cons, List.not_mem_nil, or_false] at ha hb
  rcases ha with rfl | rfl | rfl <;> rcases hb with rfl | rfl | rfl <;>
    exact ⟨by decide, by decide⟩

/-- C9 witness: the theorem evaluates at the off-diagonal pair
("High", "Low"). -/
theorem risk_map_total_symmetric_witness :
    (risk_map_lookup "High" "Low").isSome = true ∧
    risk_map_lookup "High" "Low" = risk_map_lookup "Low" "High" :=
  risk_map_total_symmetric "High" "Low" (by decide) (by decide)

end AutoESG
